import Mathlib

/-!
Verification of the build-time capability registry described by
`pyarrow/include/arrow/util/config.h`.

The header only materializes the manifest values (version numbers, derived
version strings, build metadata, and the feature / dependency flag macros).
The query surface (`isFeatureEnabled`, `isDependencyAvailable`, `getVersion`,
`getBuildMetadata`, `requireFeature`) is specified but not present in the
source tree, so those operations are modelled from the spec; every concrete
value they serve comes from `config.h`.
-/

/-- Value of the macro ARROW_VERSION_MAJOR in config.h. -/
def ARROW_VERSION_MAJOR : Nat := 16

/-- Value of the macro ARROW_VERSION_MINOR in config.h. -/
def ARROW_VERSION_MINOR : Nat := 0

/-- Value of the macro ARROW_VERSION_PATCH in config.h. -/
def ARROW_VERSION_PATCH : Nat := 0

/-- The integer version-encoding scheme used by the ARROW_VERSION macro:
((major * 1000) + minor) * 1000 + patch, in exact integer arithmetic. -/
def versionEncoding (major minor patch : Nat) : Nat :=
  ((major * 1000) + minor) * 1000 + patch

/-- Value of the macro ARROW_VERSION in config.h, exactly the macro body
((ARROW_VERSION_MAJOR * 1000) + ARROW_VERSION_MINOR) * 1000 +
ARROW_VERSION_PATCH. -/
def ARROW_VERSION : Nat :=
  ((ARROW_VERSION_MAJOR * 1000) + ARROW_VERSION_MINOR) * 1000 +
    ARROW_VERSION_PATCH

/-- Value of the macro ARROW_VERSION_STRING in config.h. -/
def ARROW_VERSION_STRING : String := "16.0.0"

/-- Value of the macro ARROW_SO_VERSION in config.h. -/
def ARROW_SO_VERSION : String := "1600"

/-- Value of the macro ARROW_FULL_SO_VERSION in config.h. -/
def ARROW_FULL_SO_VERSION : String := "1600.0.0"

/-- Modelled from the spec: the provenance bundle returned by
getBuildMetadata (buildType, compilerId, compilerVersion, compilerFlags,
gitCommitId, gitDescription, packageKind); the accessor itself is missing
from src, only the macro values are present. -/
structure BuildMetadata where
  buildType : String
  compilerId : String
  compilerVersion : String
  compilerFlags : String
  gitCommitId : String
  gitDescription : String
  packageKind : String
deriving DecidableEq, Repr

/-- Modelled from the spec: the CapabilityManifest data model of section 3
(version triple, derived version strings, build metadata, and the two flag
mappings `features` and `optionalDependencies`); the data structure is
missing from src, which only materializes the values as macros. -/
structure CapabilityManifest where
  versionMajor : Nat
  versionMinor : Nat
  versionPatch : Nat
  versionString : String
  soVersion : String
  fullSoVersion : String
  buildMetadata : BuildMetadata
  features : List (String × Bool)
  optionalDependencies : List (String × Bool)
deriving DecidableEq, Repr

/-- Modelled from the spec: the two error kinds of section 7,
UnknownFeatureError (key outside the closed set) and
FeatureUnavailableError (key recognized but disabled); the error types are
missing from src. -/
inductive RegistryError where
  | unknownFeatureError (name : String)
  | featureUnavailableError (name : String)
deriving DecidableEq, Repr

/-- Modelled from the spec: lookup of a key in a fixed flag table (the
closed-set mapping of section 3); missing from src. Returns none exactly
when the key is not among the table's keys. -/
def lookupFlag : List (String × Bool) → String → Option Bool
  | [], _ => none
  | (k, v) :: rest, name => if k = name then some v else lookupFlag rest name

/-- Modelled from the spec: isFeatureEnabled(name) returns whether a named
module was compiled in, and fails with UnknownFeatureError if name is not
among the closed set of recognized feature keys; the operation is missing
from src. -/
def isFeatureEnabled (m : CapabilityManifest) (name : String) :
    Except RegistryError Bool :=
  match lookupFlag m.features name with
  | some b => .ok b
  | none => .error (.unknownFeatureError name)

/-- Modelled from the spec: isDependencyAvailable(name), same contract as
isFeatureEnabled over the optionalDependencies set; missing from src. -/
def isDependencyAvailable (m : CapabilityManifest) (name : String) :
    Except RegistryError Bool :=
  match lookupFlag m.optionalDependencies name with
  | some b => .ok b
  | none => .error (.unknownFeatureError name)

/-- Modelled from the spec: getVersion() returns the version triple
(major, minor, patch), no error condition; missing from src. -/
def getVersion (m : CapabilityManifest) : Nat × Nat × Nat :=
  (m.versionMajor, m.versionMinor, m.versionPatch)

/-- Modelled from the spec: getBuildMetadata() returns the full provenance
bundle as a read-only view, no error condition; missing from src. -/
def getBuildMetadata (m : CapabilityManifest) : BuildMetadata :=
  m.buildMetadata

/-- Modelled from the spec: requireFeature(name) is a no-op if the feature
is enabled and fails with FeatureUnavailableError otherwise (and with
UnknownFeatureError on an unrecognized key); missing from src. -/
def requireFeature (m : CapabilityManifest) (name : String) :
    Except RegistryError Unit :=
  match isFeatureEnabled m name with
  | .ok true => .ok ()
  | .ok false => .error (.featureUnavailableError name)
  | .error e => .error e

/-- The closed set of recognized feature keys of a manifest. -/
def featureKeys (m : CapabilityManifest) : List String :=
  m.features.map Prod.fst

/-- The closed set of recognized dependency keys of a manifest. -/
def dependencyKeys (m : CapabilityManifest) : List String :=
  m.optionalDependencies.map Prod.fst

/-- The concrete manifest materialized by config.h: version macros,
derived strings, provenance macros, and the feature and dependency flag
blocks (a macro defined in the header maps to true, a commented-out undef
to false). CUDA is carried as a recognized feature key, as the spec's
testable properties require (requireFeature on CUDA reports
FeatureUnavailableError, not UnknownFeatureError); the allocator and
third-party backend macros form the optionalDependencies table. -/
def arrowManifest : CapabilityManifest where
  versionMajor := ARROW_VERSION_MAJOR
  versionMinor := ARROW_VERSION_MINOR
  versionPatch := ARROW_VERSION_PATCH
  versionString := ARROW_VERSION_STRING
  soVersion := ARROW_SO_VERSION
  fullSoVersion := ARROW_FULL_SO_VERSION
  buildMetadata :=
    { buildType := "RELEASE"
      compilerId := "AppleClang"
      compilerVersion := "14.0.0.14000029"
      compilerFlags := " -Qunused-arguments -fcolor-diagnostics"
      gitCommitId := "6a28035c2b49b432dc63f5ee7524d76b4ed2d762"
      gitDescription := ""
      packageKind := "python-wheel-macos" }
  features :=
    [("COMPUTE", true), ("CSV", true), ("CUDA", false), ("DATASET", true),
     ("FILESYSTEM", true), ("FLIGHT", true), ("FLIGHT_SQL", false),
     ("IPC", true), ("JSON", true), ("ORC", true), ("PARQUET", true),
     ("SUBSTRAIT", true)]
  optionalDependencies :=
    [("JEMALLOC", true), ("MIMALLOC", true), ("AZURE", true), ("GCS", true),
     ("HDFS", true), ("S3", true), ("BROTLI", true), ("BZ2", true),
     ("LZ4", true), ("RE2", true), ("SNAPPY", true), ("UTF8PROC", true),
     ("ZLIB", true), ("ZSTD", true), ("CUDA", false), ("UCX", false)]

/-- Render a version triple as major.minor.patch with dots in between. -/
def formatVersionTriple (v : Nat × Nat × Nat) : String :=
  toString v.1 ++ "." ++ toString v.2.1 ++ "." ++ toString v.2.2

/-- A key absent from a table's key list is not found by lookupFlag. -/
theorem lookupFlag_eq_none_of_not_mem (t : List (String × Bool))
    (name : String) (h : name ∉ t.map Prod.fst) :
    lookupFlag t name = none := by
  induction t with
  | nil => rfl
  | cons kv rest ih =>
    simp only [List.map_cons, List.mem_cons] at h
    push_neg at h
    simp only [lookupFlag, ih h.2]
    rw [if_neg]
    intro hk
    exact h.1 hk.symm

/-- A key present in a table's key list is found by lookupFlag. -/
theorem lookupFlag_isSome_of_mem (t : List (String × Bool))
    (name : String) (h : name ∈ t.map Prod.fst) :
    ∃ b, lookupFlag t name = some b := by
  induction t with
  | nil => simp at h
  | cons kv rest ih =>
    simp only [List.map_cons, List.mem_cons] at h
    by_cases hk : kv.1 = name
    · exact ⟨kv.2, by simp [lookupFlag, hk]⟩
    · rcases h with h | h
      · exact absurd h.symm hk
      · rcases ih h with ⟨b, hb⟩
        exact ⟨b, by simp [lookupFlag, hk, hb]⟩

/-- C1: the version triple returned by getVersion, rendered as
major.minor.patch, equals versionString exactly, and with the
manifest's values major=16, minor=0, patch=0 that string is "16.0.0". -/
theorem c1_version_string_consistent :
    formatVersionTriple (getVersion arrowManifest) =
      arrowManifest.versionString ∧
    arrowManifest.versionString = "16.0.0" ∧
    getVersion arrowManifest = (16, 0, 0) := by
  refine ⟨?_, rfl, rfl⟩
  rfl

/-- C2: for every name outside the closed set of recognized feature keys,
isFeatureEnabled fails with UnknownFeatureError and never returns a
boolean; in particular for "NOT_A_REAL_FEATURE". -/
theorem c2_unknown_feature_error (name : String)
    (h : name ∉ featureKeys arrowManifest) :
    isFeatureEnabled arrowManifest name =
      .error (.unknownFeatureError name) ∧
    ∀ b : Bool, isFeatureEnabled arrowManifest name ≠ .ok b := by
  have hnone := lookupFlag_eq_none_of_not_mem arrowManifest.features name h
  constructor
  · simp [isFeatureEnabled, hnone]
  · intro b
    simp [isFeatureEnabled, hnone]

/-- Witness for C2 at the concrete unrecognized key "NOT_A_REAL_FEATURE". -/
theorem c2_unknown_feature_error_witness :
    isFeatureEnabled arrowManifest "NOT_A_REAL_FEATURE" =
      .error (.unknownFeatureError "NOT_A_REAL_FEATURE") :=
  (c2_unknown_feature_error "NOT_A_REAL_FEATURE" (by decide)).1

/-- C3: for every recognized feature name, requireFeature succeeds exactly
when isFeatureEnabled returns true and otherwise fails with
FeatureUnavailableError; concretely requireFeature on "PARQUET" succeeds
and on "CUDA" fails with FeatureUnavailableError. -/
theorem c3_require_feature (name : String)
    (h : name ∈ featureKeys arrowManifest) :
    (requireFeature arrowManifest name = .ok () ↔
      isFeatureEnabled arrowManifest name = .ok true) ∧
    (isFeatureEnabled arrowManifest name ≠ .ok true →
      requireFeature arrowManifest name =
        .error (.featureUnavailableError name)) ∧
    requireFeature arrowManifest "PARQUET" = .ok () ∧
    requireFeature arrowManifest "CUDA" =
      .error (.featureUnavailableError "CUDA") := by
  rcases lookupFlag_isSome_of_mem arrowManifest.features name h with ⟨b, hb⟩
  refine ⟨?_, ?_, rfl, rfl⟩
  · cases b <;> simp [requireFeature, isFeatureEnabled, hb]
  · intro hne
    cases b with
    | false => simp [requireFeature, isFeatureEnabled, hb]
    | true => exact absurd (by simp [isFeatureEnabled, hb]) hne

/-- Witness for C3 at the concrete recognized key "PARQUET". -/
theorem c3_require_feature_witness :
    requireFeature arrowManifest "PARQUET" = .ok () :=
  (c3_require_feature "PARQUET" (by decide)).2.2.1

/-- C4: isFeatureEnabled returns true for "COMPUTE" and false for
"FLIGHT_SQL", per the manifest's declared state. -/
theorem c4_compute_flight_sql :
    isFeatureEnabled arrowManifest "COMPUTE" = .ok true ∧
    isFeatureEnabled arrowManifest "FLIGHT_SQL" = .ok false :=
  ⟨rfl, rfl⟩

/-- C5: soVersion is the decimal rendering of 100 * major + minor,
namely "1600", and fullSoVersion is soVersion followed by ".patch.0",
namely "1600.0.0". -/
theorem c5_so_version_consistent :
    arrowManifest.soVersion =
      toString (100 * arrowManifest.versionMajor +
        arrowManifest.versionMinor) ∧
    arrowManifest.soVersion = "1600" ∧
    arrowManifest.fullSoVersion =
      arrowManifest.soVersion ++ "." ++
        toString arrowManifest.versionPatch ++ ".0" ∧
    arrowManifest.fullSoVersion = "1600.0.0" := by
  refine ⟨?_, rfl, ?_, rfl⟩ <;> rfl

/-- C8: the registry represents both allocator backends as present at
once: isDependencyAvailable returns true for both "JEMALLOC" and
"MIMALLOC", and both flags are stored in the manifest unaltered. -/
theorem c8_both_allocators_representable :
    isDependencyAvailable arrowManifest "JEMALLOC" = .ok true ∧
    isDependencyAvailable arrowManifest "MIMALLOC" = .ok true ∧
    ("JEMALLOC", true) ∈ arrowManifest.optionalDependencies ∧
    ("MIMALLOC", true) ∈ arrowManifest.optionalDependencies :=
  ⟨rfl, rfl, by decide, by decide⟩

/-- C10: the ARROW_VERSION macro value equals the encoding
((major * 1000) + minor) * 1000 + patch in exact integer arithmetic,
equals 16000000 for the triple (16, 0, 0), and the encoding is strictly
monotone in the lexicographic order on triples whenever the minor and
patch components are below 1000. -/
theorem c10_version_encoding (m1 n1 p1 m2 n2 p2 : Nat) :
    ARROW_VERSION =
      versionEncoding ARROW_VERSION_MAJOR ARROW_VERSION_MINOR
        ARROW_VERSION_PATCH ∧
    ARROW_VERSION = 16000000 ∧
    (n1 < 1000 → p1 < 1000 → n2 < 1000 → p2 < 1000 →
      (m1 < m2 ∨ (m1 = m2 ∧ n1 < n2) ∨ (m1 = m2 ∧ n1 = n2 ∧ p1 < p2)) →
      versionEncoding m1 n1 p1 < versionEncoding m2 n2 p2) := by
  refine ⟨rfl, rfl, ?_⟩
  intro hn1 hp1 hn2 hp2 hlex
  simp only [versionEncoding]
  rcases hlex with h | ⟨h, h2⟩ | ⟨h, h2, h3⟩ <;> omega

/-- Witness for C10: the monotonicity conclusion at the concrete triples
(1, 2, 3) and (2, 0, 0). -/
theorem c10_version_encoding_witness :
    versionEncoding 1 2 3 < versionEncoding 2 0 0 :=
  (c10_version_encoding 1 2 3 2 0 0).2.2 (by decide) (by decide)
    (by decide) (by decide) (Or.inl (by decide))

/-- Modelled from the spec: a query call against the process-wide registry
instance, as a transition on the registry state returning the call's
result together with the registry state after the call. isFeatureEnabled
is a pure read, so the state after the call is the state before it. -/
def isFeatureEnabledCall (name : String) (m : CapabilityManifest) :
    Except RegistryError Bool × CapabilityManifest :=
  (isFeatureEnabled m name, m)

/-- Modelled from the spec: isDependencyAvailable as a state transition on
the registry (a pure read). -/
def isDependencyAvailableCall (name : String) (m : CapabilityManifest) :
    Except RegistryError Bool × CapabilityManifest :=
  (isDependencyAvailable m name, m)

/-- Modelled from the spec: getVersion as a state transition on the
registry (a pure read). -/
def getVersionCall (m : CapabilityManifest) :
    (Nat × Nat × Nat) × CapabilityManifest :=
  (getVersion m, m)

/-- Modelled from the spec: getBuildMetadata as a state transition on the
registry (a pure read). -/
def getBuildMetadataCall (m : CapabilityManifest) :
    BuildMetadata × CapabilityManifest :=
  (getBuildMetadata m, m)

/-- Modelled from the spec: requireFeature as a state transition on the
registry (a pure read; the no-op or error carries no state change). -/
def requireFeatureCall (name : String) (m : CapabilityManifest) :
    Except RegistryError Unit × CapabilityManifest :=
  (requireFeature m name, m)

/-- C6: every query operation is a pure read: after any call, whether it
succeeds or fails, every field of the CapabilityManifest is unchanged. -/
theorem c6_queries_are_pure_reads (m : CapabilityManifest) (name : String) :
    (isFeatureEnabledCall name m).2 = m ∧
    (isDependencyAvailableCall name m).2 = m ∧
    (getVersionCall m).2 = m ∧
    (getBuildMetadataCall m).2 = m ∧
    (requireFeatureCall name m).2 = m ∧
    (isFeatureEnabledCall name m).2.versionMajor = m.versionMajor ∧
    (isFeatureEnabledCall name m).2.versionMinor = m.versionMinor ∧
    (isFeatureEnabledCall name m).2.versionPatch = m.versionPatch ∧
    (isFeatureEnabledCall name m).2.versionString = m.versionString ∧
    (isFeatureEnabledCall name m).2.soVersion = m.soVersion ∧
    (isFeatureEnabledCall name m).2.fullSoVersion = m.fullSoVersion ∧
    (isFeatureEnabledCall name m).2.buildMetadata = m.buildMetadata ∧
    (isFeatureEnabledCall name m).2.features = m.features ∧
    (requireFeatureCall name m).2.optionalDependencies =
      m.optionalDependencies :=
  ⟨rfl, rfl, rfl, rfl, rfl, rfl, rfl, rfl, rfl, rfl, rfl, rfl, rfl, rfl⟩

/-- C7: for a recognized feature key, two successive isFeatureEnabled
calls on the same registry instance (the second running on the state the
first call left behind) return the same boolean result. -/
theorem c7_repeated_calls_agree (m : CapabilityManifest) (name : String)
    (h : name ∈ featureKeys m) :
    ∃ b : Bool,
      (isFeatureEnabledCall name m).1 = .ok b ∧
      (isFeatureEnabledCall name (isFeatureEnabledCall name m).2).1 =
        .ok b := by
  rcases lookupFlag_isSome_of_mem m.features name h with ⟨b, hb⟩
  exact ⟨b, by simp [isFeatureEnabledCall, isFeatureEnabled, hb],
    by simp [isFeatureEnabledCall, isFeatureEnabled, hb]⟩

/-- Witness for C7 at the concrete recognized key "CSV" on the config.h
manifest. -/
theorem c7_repeated_calls_agree_witness :
    ∃ b : Bool,
      (isFeatureEnabledCall "CSV" arrowManifest).1 = .ok b ∧
      (isFeatureEnabledCall "CSV"
        (isFeatureEnabledCall "CSV" arrowManifest).2).1 = .ok b :=
  c7_repeated_calls_agree arrowManifest "CSV" (by decide)

/-- A query against the registry, covering the whole read surface. -/
inductive Query where
  | featureQuery (name : String)
  | dependencyQuery (name : String)
  | versionQuery
  | metadataQuery
  | requireQuery (name : String)
deriving DecidableEq, Repr

/-- The result a query yields. -/
inductive Answer where
  | flagAnswer (r : Except RegistryError Bool)
  | versionAnswer (v : Nat × Nat × Nat)
  | metadataAnswer (md : BuildMetadata)
  | requireAnswer (r : Except RegistryError Unit)
deriving Repr

/-- The pure result of one query against a given registry state. -/
def answerQuery (m : CapabilityManifest) : Query → Answer
  | .featureQuery name => .flagAnswer (isFeatureEnabled m name)
  | .dependencyQuery name => .flagAnswer (isDependencyAvailable m name)
  | .versionQuery => .versionAnswer (getVersion m)
  | .metadataQuery => .metadataAnswer (getBuildMetadata m)
  | .requireQuery name => .requireAnswer (requireFeature m name)

/-- One query executed as a transition on the shared registry state. -/
def stepQuery (q : Query) (m : CapabilityManifest) :
    Answer × CapabilityManifest :=
  match q with
  | .featureQuery name =>
    let (r, m1) := isFeatureEnabledCall name m
    (.flagAnswer r, m1)
  | .dependencyQuery name =>
    let (r, m1) := isDependencyAvailableCall name m
    (.flagAnswer r, m1)
  | .versionQuery =>
    let (v, m1) := getVersionCall m
    (.versionAnswer v, m1)
  | .metadataQuery =>
    let (md, m1) := getBuildMetadataCall m
    (.metadataAnswer md, m1)
  | .requireQuery name =>
    let (r, m1) := requireFeatureCall name m
    (.requireAnswer r, m1)

/-- A schedule of queries executed one after another against the shared
registry state, each query running on the state the previous one left. -/
def runQueries : List Query → CapabilityManifest →
    List Answer × CapabilityManifest
  | [], m => ([], m)
  | q :: qs, m =>
    let (a, m1) := stepQuery q m
    let (as, m2) := runQueries qs m1
    (a :: as, m2)

/-- Interleave xs ys zs holds when zs is an interleaving of the two
sequences xs and ys preserving the order within each: the possible
unsynchronized schedules of two threads issuing xs and ys. -/
inductive Interleave {α : Type} : List α → List α → List α → Prop where
  | nil : Interleave [] [] []
  | left (a : α) {xs ys zs : List α} :
      Interleave xs ys zs → Interleave (a :: xs) ys (a :: zs)
  | right (a : α) {xs ys zs : List α} :
      Interleave xs ys zs → Interleave xs (a :: ys) (a :: zs)

/-- Mapping a function over all three lists preserves interleaving. -/
theorem Interleave.map {α β : Type} (f : α → β) {xs ys zs : List α}
    (h : Interleave xs ys zs) :
    Interleave (xs.map f) (ys.map f) (zs.map f) := by
  induction h with
  | nil => exact .nil
  | left a _ ih => exact .left (f a) ih
  | right a _ ih => exact .right (f a) ih

/-- One query step leaves the registry state unchanged and answers with
the pure answer. -/
theorem stepQuery_eq (q : Query) (m : CapabilityManifest) :
    stepQuery q m = (answerQuery m q, m) := by
  cases q <;> rfl

/-- Any schedule of queries run against the shared registry state leaves
the state unchanged and yields each query's pure answer. -/
theorem runQueries_eq (qs : List Query) (m : CapabilityManifest) :
    runQueries qs m = (qs.map (answerQuery m), m) := by
  induction qs with
  | nil => rfl
  | cons q rest ih =>
    simp [runQueries, stepQuery_eq, ih]

/-- C9: for any two threads issuing query sequences t1 and t2 with no
synchronization, every interleaved schedule run against the shared
registry instance gives each query the answer it gets when run alone
sequentially, each thread observes exactly the results of its own
sequential run, and the registry state is unchanged. -/
theorem c9_concurrent_equals_sequential (m : CapabilityManifest)
    (t1 t2 sched : List Query) (h : Interleave t1 t2 sched) :
    (runQueries sched m).1 = sched.map (answerQuery m) ∧
    (runQueries sched m).2 = m ∧
    (runQueries t1 m).1 = t1.map (answerQuery m) ∧
    (runQueries t2 m).1 = t2.map (answerQuery m) ∧
    Interleave (runQueries t1 m).1 (runQueries t2 m).1
      (runQueries sched m).1 := by
  refine ⟨?_, ?_, ?_, ?_, ?_⟩ <;> simp only [runQueries_eq]
  exact h.map (answerQuery m)

/-- Witness for C9: a concrete interleaving of two one-query threads
(thread 1 checks the COMPUTE feature, thread 2 reads the version), run
against the config.h manifest. -/
theorem c9_concurrent_equals_sequential_witness :
    (runQueries [.featureQuery "COMPUTE", .versionQuery] arrowManifest).1 =
      [.featureQuery "COMPUTE", .versionQuery].map
        (answerQuery arrowManifest) :=
  (c9_concurrent_equals_sequential arrowManifest [.featureQuery "COMPUTE"]
    [.versionQuery] [.featureQuery "COMPUTE", .versionQuery]
    (Interleave.left _ (Interleave.right _ Interleave.nil))).1
